import Mathlib

/-!
Verification of the vocabulary-drill application (src/src/App.jsx).

The component state held in React useState hooks is embedded as a single
record `SessionState`; each event handler of the component becomes a pure
function from state to state.  JavaScript `undefined` values (absent
spreadsheet cells, missing record fields) are embedded as `Option`;
a handler that can throw a TypeError returns `Option SessionState`,
with `none` standing for the thrown exception.
-/

/-- A spreadsheet cell as delivered by the decoding library: `none` is an
absent (`undefined`) cell, `some t` a textual cell value. -/
abbrev Cell : Type := Option String

/-- A raw spreadsheet row: an ordered list of cells. -/
abbrev Row : Type := List Cell

/-- JavaScript indexing `row[i]`: out-of-range access yields `undefined`. -/
def cellAt (row : Row) (i : Nat) : Option String :=
  List.getD row i none

/-- One drill item, as built by `loadData`.  Every field may be
`undefined` when the source row was short or had empty cells. -/
structure Exercise where
  id : Option String
  word : Option String
  hint : Option String
  sentence : Option String
  blankedWord : Option String
  meaning : Option String
  pronunciation : Option String
deriving DecidableEq, Repr

/-- The empty object `{}` used as fallback for out-of-range cursor reads. -/
def emptyExercise : Exercise :=
  { id := none, word := none, hint := none, sentence := none
    blankedWord := none, meaning := none, pronunciation := none }

/-- Score accumulator: the `stats` hook value. -/
structure Stats where
  correct : Nat
  total : Nat
deriving DecidableEq, Repr

/-- The `exerciseMode` hook value: the string "normal" or "review". -/
inductive Mode where
  | normal : Mode
  | review : Mode
deriving DecidableEq, Repr

/-- The full component state: one field per `useState` hook of
`VocabularyApp`.  `isCorrect := none` embeds the JS value `null`. -/
structure SessionState where
  exercises : List Exercise
  currentExerciseIndex : Nat
  userAnswer : String
  feedback : String
  isCorrect : Option Bool
  showMeaning : Bool
  loading : Bool
  stats : Stats
  exerciseMode : Mode
deriving DecidableEq, Repr

/-- JS `toLowerCase()` on the character list of the string.  `Char.toLower`
lowercases the ASCII range, which covers the vocabulary data; the
embedding is stated over it. -/
def jsToLower (s : String) : String :=
  String.mk (List.map Char.toLower s.data)

/-- JS `trim()`: remove whitespace from both ends of the string. -/
def jsTrim (s : String) : String :=
  String.mk (List.reverse (List.dropWhile Char.isWhitespace
    (List.reverse (List.dropWhile Char.isWhitespace s.data))))

/-- The normalization `x.toLowerCase().trim()` used by `checkAnswer`. -/
def jsNormalize (s : String) : String :=
  jsTrim (jsToLower s)

/-- JS `split('\r\n')` on the character list: cut at every
non-overlapping occurrence of CRLF, scanning left to right.  The result
always has at least one segment; it has two or more exactly when the
string contains CRLF, i.e. when JS `includes('\r\n')` is true. -/
def splitCRLF : List Char → List (List Char)
  | [] => [[]]
  | '\r' :: '\n' :: rest => [] :: splitCRLF rest
  | c :: rest =>
      match splitCRLF rest with
      | [] => [[c]]
      | seg :: segs => (c :: seg) :: segs

/-- JS `q.split('\r\n')` as a list of strings. -/
def jsSplitCRLF (s : String) : List String :=
  List.map String.mk (splitCRLF s.data)

/-- Sentence derivation inside the `loadData` row loop:
`let sentence = row[8]; if (sentence && sentence.includes('\r\n'))
sentence = sentence.split('\r\n')[1];` followed by the field initializer
`sentence: sentence || row[4]`.  Element `[1]` of the split is the second
list element, which exists whenever the separator occurs.  Falsiness of
a string is emptiness. -/
def deriveSentence (question exampleCell : Option String) : Option String :=
  let sentence : Option String :=
    match question with
    | none => none
    | some q =>
        if q ≠ "" ∧ 2 ≤ (jsSplitCRLF q).length then
          (jsSplitCRLF q).get? 1
        else some q
  match sentence with
  | none => exampleCell
  | some t => if t = "" then exampleCell else some t

/-- The object pushed for one non-empty row in the `loadData` loop. -/
def rowToExercise (row : Row) : Exercise :=
  { id := cellAt row 0
    word := cellAt row 5
    hint := cellAt row 7
    sentence := deriveSentence (cellAt row 8) (cellAt row 4)
    blankedWord := cellAt row 6
    meaning := cellAt row 3
    pronunciation := cellAt row 2 }

/-- The `loadData` loop body over the rows after the header:
`if (row.length === 0) continue;` else push one exercise. -/
def processRows : List Row → List Exercise
  | [] => []
  | r :: rest =>
      if List.isEmpty r then processRows rest
      else rowToExercise r :: processRows rest

/-- The whole parsing pass of `loadData`: the loop starts at `i = 1`,
skipping the header row. -/
def parseRows (rawData : List Row) : List Exercise :=
  processRows (List.drop 1 rawData)

/-- `loadData`: parses the rows, shuffles (the lodash shuffle is an
external black box, passed in as a function), stores the result, resets
the cursor to 0 and clears the loading flag.  No other hook is written. -/
def loadData (shuffle : List Exercise → List Exercise) (rawData : List Row)
    (s : SessionState) : SessionState :=
  { s with
    exercises := shuffle (parseRows rawData)
    currentExerciseIndex := 0
    loading := false }

/-- `const currentExercise = exercises[currentExerciseIndex] || {};`
an out-of-range index yields `undefined`, hence the empty object. -/
def currentExercise (s : SessionState) : Exercise :=
  List.getD s.exercises s.currentExerciseIndex emptyExercise

/-- `checkAnswer`: reads `currentExercise.word.toLowerCase().trim()`.
When `word` is `undefined` the member access throws a TypeError before
any state is written; this is the `none` result.  Otherwise the
normalized strings are compared and all three hooks are written. -/
def checkAnswer (s : SessionState) : Option SessionState :=
  match (currentExercise s).word with
  | none => none
  | some w =>
      let correctAnswer := jsNormalize w
      let userInput := jsNormalize s.userAnswer
      let isAnswerCorrect : Bool := correctAnswer = userInput
      some { s with
        isCorrect := some isAnswerCorrect
        feedback :=
          if isAnswerCorrect then "Correct!"
          else "Not quite. The correct answer is " ++ w
        stats :=
          { correct := s.stats.correct + (if isAnswerCorrect then 1 else 0)
            total := s.stats.total + 1 } }

/-- `resetExerciseState`: clears the four attempt-state hooks. -/
def resetExerciseState (s : SessionState) : SessionState :=
  { s with
    userAnswer := ""
    feedback := ""
    isCorrect := none
    showMeaning := false }

/-- `nextExercise`: advance if not at the last index, else enter review
mode.  There is no guard on the current mode. -/
def nextExercise (s : SessionState) : SessionState :=
  if s.currentExerciseIndex < s.exercises.length - 1 then
    resetExerciseState
      { s with currentExerciseIndex := s.currentExerciseIndex + 1 }
  else
    { s with exerciseMode := Mode.review }

/-- `prevExercise`: step back if the cursor is positive.  There is no
guard on the current mode. -/
def prevExercise (s : SessionState) : SessionState :=
  if 0 < s.currentExerciseIndex then
    resetExerciseState
      { s with currentExerciseIndex := s.currentExerciseIndex - 1 }
  else s

/-- `restartExercises`: clears everything and returns to loading. -/
def restartExercises (s : SessionState) : SessionState :=
  resetExerciseState
    { s with
      exercises := []
      currentExerciseIndex := 0
      stats := { correct := 0, total := 0 }
      exerciseMode := Mode.normal
      loading := true }

/-- `toggleMeaning`: flips the `showMeaning` hook. -/
def toggleMeaning (s : SessionState) : SessionState :=
  { s with showMeaning := !s.showMeaning }

/-- `Math.round(x)` for the nonnegative rational `100 * correct / total`
with `total > 0`: round half up, i.e. `⌊x + 1/2⌋`. -/
def roundPct (correct total : Nat) : Nat :=
  (200 * correct + total) / (2 * total)

/-- The score line of the active screen:
`stats.total > 0 ? Math.round((stats.correct / stats.total) * 100) : 0`. -/
def activePctDisplay (st : Stats) : Nat :=
  if 0 < st.total then roundPct st.correct st.total else 0

/-- The score line of the review screen:
`Math.round((stats.correct / stats.total) * 100)` with no guard; for
`total = 0` the JS computation is `Math.round(NaN) = NaN`, embedded as
`none`. -/
def reviewPctDisplay (st : Stats) : Option Nat :=
  if st.total = 0 then none else some (roundPct st.correct st.total)

/-- The session is in the spec state `active`: the Exercise Set has been
produced and the pass has not ended. -/
def isActive (s : SessionState) : Prop :=
  s.loading = false ∧ s.exerciseMode = Mode.normal

instance (s : SessionState) : Decidable (isActive s) :=
  inferInstanceAs (Decidable (_ ∧ _))

/-- A quiescent initial state used to build concrete test states. -/
def initialState : SessionState :=
  { exercises := []
    currentExerciseIndex := 0
    userAnswer := ""
    feedback := ""
    isCorrect := none
    showMeaning := false
    loading := true
    stats := { correct := 0, total := 0 }
    exerciseMode := Mode.normal }

/-- A fully populated sample exercise. -/
def exA : Exercise :=
  { id := some "1", word := some "cat", hint := some "c..", sentence := some "The _ sat."
    blankedWord := some "c__", meaning := some "an animal", pronunciation := some "kaet" }

/-- A second sample exercise. -/
def exB : Exercise :=
  { exA with id := some "2", word := some "dog", hint := some "d.." }

/-- A loaded session: two exercises, cursor 0, active. -/
def activeState : SessionState :=
  { initialState with exercises := [exA, exB], loading := false }

/-- A finished pass: review mode with the cursor at the last index. -/
def reviewState : SessionState :=
  { activeState with currentExerciseIndex := 1, exerciseMode := Mode.review }

/-- A session whose single exercise came from a row with no word cell. -/
def noWordState : SessionState :=
  { activeState with exercises := [{ exA with word := none }], userAnswer := "cat" }

/-- A session whose single exercise has an empty-string word, with a
whitespace-only user answer typed in. -/
def emptyWordState : SessionState :=
  { activeState with exercises := [{ exA with word := some "" }], userAnswer := "   " }

/-- Claim C7: the row parser skips the first (header) row, skips every
row with zero cells, and produces exactly one Exercise per remaining
non-empty row, preserving the input order of those rows: the output is
exactly the map of `rowToExercise` over the non-empty rows after the
header, in order. -/
theorem parseRows_one_exercise_per_row (rawData : List Row) :
    parseRows rawData =
      List.map rowToExercise
        (List.filter (fun r => !List.isEmpty r) (List.drop 1 rawData)) := by
  unfold parseRows
  induction List.drop 1 rawData with
  | nil => rfl
  | cons r rest ih =>
      by_cases h : List.isEmpty r <;>
        simp [processRows, List.filter_cons, h, ih]

/-- Claim C8: in an active session with a non-empty Exercise Set,
nextExercise at the last index moves the mode to review leaving cursor
and Score unchanged; below the last index it increments the cursor by
one, resets the Attempt State, and keeps mode and Score. -/
theorem nextExercise_spec (s : SessionState)
    (h : isActive s) (hne : s.exercises ≠ []) :
    (s.currentExerciseIndex = s.exercises.length - 1 →
      (nextExercise s).exerciseMode = Mode.review ∧
      (nextExercise s).currentExerciseIndex = s.currentExerciseIndex ∧
      (nextExercise s).stats = s.stats) ∧
    (s.currentExerciseIndex < s.exercises.length - 1 →
      (nextExercise s).currentExerciseIndex = s.currentExerciseIndex + 1 ∧
      (nextExercise s).userAnswer = "" ∧
      (nextExercise s).isCorrect = none ∧
      (nextExercise s).feedback = "" ∧
      (nextExercise s).showMeaning = false ∧
      (nextExercise s).exerciseMode = Mode.normal ∧
      (nextExercise s).stats = s.stats) := by
  constructor
  · intro hlast
    have hnot : ¬ s.currentExerciseIndex < s.exercises.length - 1 := by omega
    simp [nextExercise, hnot]
  · intro hlt
    simp [nextExercise, hlt, resetExerciseState, h.2]

/-- Concrete instantiation of the nextExercise specification. -/
theorem nextExercise_spec_witness :
    (nextExercise activeState).currentExerciseIndex = 1 ∧
    (nextExercise activeState).isCorrect = none :=
  have h := (nextExercise_spec activeState (by decide) (by decide)).2 (by decide)
  ⟨h.1, h.2.2.1⟩

/-- Claim C9: in an active session, resetExerciseState clears the user
answer, the correctness flag, the feedback text and the meaning reveal,
and leaves cursor, Score, Exercise Set and mode unchanged. -/
theorem resetExerciseState_spec (s : SessionState) (h : isActive s) :
    (resetExerciseState s).userAnswer = "" ∧
    (resetExerciseState s).isCorrect = none ∧
    (resetExerciseState s).feedback = "" ∧
    (resetExerciseState s).showMeaning = false ∧
    (resetExerciseState s).currentExerciseIndex = s.currentExerciseIndex ∧
    (resetExerciseState s).stats = s.stats ∧
    (resetExerciseState s).exercises = s.exercises ∧
    (resetExerciseState s).exerciseMode = s.exerciseMode := by
  simp [resetExerciseState]

/-- Concrete instantiation of the resetExerciseState specification. -/
theorem resetExerciseState_spec_witness :
    (resetExerciseState activeState).userAnswer = "" ∧
    (resetExerciseState activeState).stats = activeState.stats :=
  have h := resetExerciseState_spec activeState (by decide)
  ⟨h.1, h.2.2.2.2.2.1⟩

/-- Claim C10: when the cursor is out of range of the Exercise Set, the
current exercise is the empty record: every field is undefined, and no
indexing error occurs. -/
theorem currentExercise_out_of_range (s : SessionState)
    (h : s.exercises.length ≤ s.currentExerciseIndex) :
    currentExercise s = emptyExercise ∧
    (currentExercise s).word = none ∧
    (currentExercise s).hint = none ∧
    (currentExercise s).sentence = none ∧
    (currentExercise s).meaning = none ∧
    (currentExercise s).pronunciation = none ∧
    (currentExercise s).blankedWord = none := by
  have he : currentExercise s = emptyExercise := by
    unfold currentExercise
    exact List.getD_eq_default _ _ h
  rw [he]
  exact ⟨rfl, rfl, rfl, rfl, rfl, rfl, rfl⟩

/-- Concrete instantiation of the out-of-range read: empty Exercise Set. -/
theorem currentExercise_out_of_range_witness :
    currentExercise initialState = emptyExercise :=
  (currentExercise_out_of_range initialState (by decide)).1

/-- Claim C1 as stated is false: with an empty Exercise Set the current
exercise is the empty object, its word is undefined, and checkAnswer
throws a TypeError (result `none`) — no state is produced and
Score.total is not increased by 1. -/
theorem checkAnswer_counterexample :
    checkAnswer { initialState with loading := false, userAnswer := "x" } = none := rfl

/-- Claim C1 (amended): when the current exercise has a defined word,
checkAnswer completes; Score.total increases by exactly 1 and
Score.correct increases by exactly 1 iff the lowercased trimmed user
answer equals the lowercased trimmed word, otherwise Score.correct is
unchanged. -/
theorem checkAnswer_score_spec (s : SessionState) (w : String)
    (h : (currentExercise s).word = some w) :
    ∃ s', checkAnswer s = some s' ∧
      s'.stats.total = s.stats.total + 1 ∧
      (s'.stats.correct = s.stats.correct + 1 ↔
        jsNormalize w = jsNormalize s.userAnswer) ∧
      (jsNormalize w ≠ jsNormalize s.userAnswer →
        s'.stats.correct = s.stats.correct) ∧
      s'.isCorrect = some (decide (jsNormalize w = jsNormalize s.userAnswer)) := by
  simp only [checkAnswer, h]
  by_cases hc : jsNormalize w = jsNormalize s.userAnswer <;>
    exact ⟨_, rfl, by simp [hc]⟩

/-- Concrete instantiation of the amended checkAnswer score property:
word "cat" with the empty user answer is counted incorrect. -/
theorem checkAnswer_score_spec_witness :
    ∃ s', checkAnswer activeState = some s' ∧
      s'.stats.total = activeState.stats.total + 1 ∧
      (s'.stats.correct = activeState.stats.correct + 1 ↔
        jsNormalize "cat" = jsNormalize activeState.userAnswer) ∧
      (jsNormalize "cat" ≠ jsNormalize activeState.userAnswer →
        s'.stats.correct = activeState.stats.correct) ∧
      s'.isCorrect =
        some (decide (jsNormalize "cat" = jsNormalize activeState.userAnswer)) :=
  checkAnswer_score_spec activeState "cat" (by decide)

/-- Claim C2 as stated is false: re-invoking the loader keeps the prior
Score, the prior attempt state and the prior review mode — none of them
is reset. -/
theorem loadData_counterexample :
    (loadData id []
        { reviewState with
          stats := { correct := 1, total := 2 }
          userAnswer := "dog", isCorrect := some false
          showMeaning := true }).stats = { correct := 1, total := 2 } ∧
    (loadData id []
        { reviewState with
          stats := { correct := 1, total := 2 }
          userAnswer := "dog", isCorrect := some false
          showMeaning := true }).exerciseMode = Mode.review ∧
    (loadData id []
        { reviewState with
          stats := { correct := 1, total := 2 }
          userAnswer := "dog", isCorrect := some false
          showMeaning := true }).userAnswer = "dog" ∧
    (loadData id []
        { reviewState with
          stats := { correct := 1, total := 2 }
          userAnswer := "dog", isCorrect := some false
          showMeaning := true }).showMeaning = true :=
  ⟨rfl, rfl, rfl, rfl⟩

/-- Claim C2 (amended): the loader replaces the Exercise Set with the
newly parsed and shuffled set, resets the cursor to 0 and clears the
loading flag; the Score, the Attempt State and the exercise mode are
left unchanged and carry over from the prior state. -/
theorem loadData_spec (shuffle : List Exercise → List Exercise)
    (rawData : List Row) (s : SessionState) :
    (loadData shuffle rawData s).exercises = shuffle (parseRows rawData) ∧
    (loadData shuffle rawData s).currentExerciseIndex = 0 ∧
    (loadData shuffle rawData s).loading = false ∧
    (loadData shuffle rawData s).stats = s.stats ∧
    (loadData shuffle rawData s).exerciseMode = s.exerciseMode ∧
    (loadData shuffle rawData s).userAnswer = s.userAnswer ∧
    (loadData shuffle rawData s).isCorrect = s.isCorrect ∧
    (loadData shuffle rawData s).feedback = s.feedback ∧
    (loadData shuffle rawData s).showMeaning = s.showMeaning :=
  ⟨rfl, rfl, rfl, rfl, rfl, rfl, rfl, rfl, rfl⟩

/-- Claim C3 as stated is false twice over: an exercise with an
undefined word makes checkAnswer throw (none) instead of completing,
and an exercise with an empty-string word marks a whitespace-only
answer as correct instead of incorrect. -/
theorem checkAnswer_degenerate_counterexample :
    checkAnswer noWordState = none ∧
    Option.map (fun t => t.isCorrect) (checkAnswer emptyWordState) =
      some (some true) :=
  ⟨rfl, rfl⟩

/-- Claim C3 (amended): for an exercise whose word is the empty string,
checkAnswer completes without error and marks the answer correct exactly
when the trimmed lowercased user answer is empty — hence incorrect for
every answer containing a non-whitespace character; for an exercise
whose word is undefined, checkAnswer throws a TypeError instead of
completing. -/
theorem checkAnswer_degenerate_word (s t : SessionState)
    (hs : (currentExercise s).word = some "")
    (ht : (currentExercise t).word = none) :
    (∃ s', checkAnswer s = some s' ∧
      s'.isCorrect = some (decide (jsNormalize s.userAnswer = ""))) ∧
    checkAnswer t = none := by
  have h0 : jsNormalize "" = "" := rfl
  constructor
  · simp only [checkAnswer, hs]
    refine ⟨_, rfl, ?_⟩
    simp [h0, eq_comm]
  · simp [checkAnswer, ht]

/-- Concrete instantiation of the degenerate-word behaviour. -/
theorem checkAnswer_degenerate_word_witness :
    (∃ s', checkAnswer emptyWordState = some s' ∧
      s'.isCorrect = some (decide (jsNormalize emptyWordState.userAnswer = ""))) ∧
    checkAnswer noWordState = none :=
  checkAnswer_degenerate_word emptyWordState noWordState (by decide) (by decide)

/-- Claim C4 as stated is false: with two line-breaks in the question
text the code takes only the segment between the first and second CRLF,
not the whole substring after the first line-break. -/
theorem deriveSentence_counterexample :
    deriveSentence (some "Label:\r\nA big _ ran.\r\nSecond line.") (some "fallback") =
      some "A big _ ran." ∧
    deriveSentence (some "Label:\r\nA big _ ran.\r\nSecond line.") (some "fallback") ≠
      some "A big _ ran.\r\nSecond line." := by
  exact ⟨by decide, by decide⟩

/-- Claim C4 (amended): for every parsed row, if the question text
contains a CRLF line-break, the derived sentence is the segment between
the first and the second CRLF (the second element of the CRLF split) —
not the whole remainder after the first line-break; without a CRLF the
non-empty question text is used verbatim; and whenever the chosen text
is empty or the question is absent, the sentence falls back to the
example-column text. -/
theorem deriveSentence_spec (q : String) (ex : Option String) :
    deriveSentence none ex = ex ∧
    deriveSentence (some "") ex = ex ∧
    ((jsSplitCRLF q).length ≤ 1 → q ≠ "" → deriveSentence (some q) ex = some q) ∧
    (2 ≤ (jsSplitCRLF q).length → q ≠ "" →
      deriveSentence (some q) ex =
        if List.getD (jsSplitCRLF q) 1 "" = "" then ex
        else some (List.getD (jsSplitCRLF q) 1 "")) := by
  refine ⟨rfl, by simp [deriveSentence], ?_, ?_⟩
  · intro hlen hq
    have h2 : ¬ 2 ≤ (jsSplitCRLF q).length := by omega
    simp [deriveSentence, h2, hq]
  · intro hlen hq
    have h1 : 1 < (jsSplitCRLF q).length := by omega
    have hseg : (jsSplitCRLF q)[1]? = some ((jsSplitCRLF q).get ⟨1, h1⟩) := by
      simp [List.getElem?_eq_getElem h1, List.get_eq_getElem]
    simp [deriveSentence, hq, hlen, hseg, List.getD_eq_getElem?_getD]

/-- Concrete instantiation of the amended sentence derivation. -/
theorem deriveSentence_spec_witness :
    deriveSentence (some "Label:\r\nNice sentence.") (some "fallback") =
      some "Nice sentence." := by
  have h := (deriveSentence_spec "Label:\r\nNice sentence." (some "fallback")).2.2.2
    (by decide) (by decide)
  rw [h]
  decide

/-- Claim C5 as stated is false: in review mode with a positive cursor,
prevExercise (bound to ArrowLeft with no mode guard) still moves the
cursor. -/
theorem prevExercise_review_counterexample :
    reviewState.exerciseMode = Mode.review ∧
    0 < reviewState.currentExerciseIndex ∧
    (prevExercise reviewState).currentExerciseIndex ≠
      reviewState.currentExerciseIndex := by
  exact ⟨rfl, by decide, by decide⟩

/-- Claim C5 (amended): in review mode the mode and the Score are
preserved by nextExercise and prevExercise, and nextExercise at or past
the last index is the identity; but the handlers are not mode-guarded:
below the last index nextExercise still increments the cursor and resets
the Attempt State, and with a positive cursor prevExercise still
decrements the cursor and resets the Attempt State; only restart leaves
review mode. -/
theorem review_navigation_spec (s : SessionState)
    (h : s.exerciseMode = Mode.review) :
    (nextExercise s).exerciseMode = Mode.review ∧
    (prevExercise s).exerciseMode = Mode.review ∧
    (nextExercise s).stats = s.stats ∧
    (prevExercise s).stats = s.stats ∧
    (¬ s.currentExerciseIndex < s.exercises.length - 1 → nextExercise s = s) ∧
    (s.currentExerciseIndex < s.exercises.length - 1 →
      (nextExercise s).currentExerciseIndex = s.currentExerciseIndex + 1 ∧
      (nextExercise s).isCorrect = none) ∧
    (s.currentExerciseIndex = 0 → prevExercise s = s) ∧
    (0 < s.currentExerciseIndex →
      (prevExercise s).currentExerciseIndex = s.currentExerciseIndex - 1 ∧
      (prevExercise s).userAnswer = "" ∧
      (prevExercise s).isCorrect = none) := by
  obtain ⟨ex, idx, ua, fb, ic, sm, ld, st, md⟩ := s
  replace h : md = Mode.review := h
  subst h
  by_cases hnext : idx < ex.length - 1 <;>
    by_cases hprev : 0 < idx <;>
      simp_all [nextExercise, prevExercise, resetExerciseState] <;>
        constructor <;> split <;> rfl

/-- Concrete instantiation of the review-mode navigation behaviour. -/
theorem review_navigation_spec_witness :
    (prevExercise reviewState).exerciseMode = Mode.review ∧
    (prevExercise reviewState).currentExerciseIndex = 0 :=
  have h := review_navigation_spec reviewState (by decide)
  ⟨h.2.1, (h.2.2.2.2.2.2.2 (by decide)).1⟩

/-- Claim C6: at Score {0, 0} the guarded active score line yields 0,
but the review screen computes Math.round((0/0)*100) = NaN (embedded
as none) because its percentage is unguarded; with a positive total both
agree with round(100*correct/total). -/
theorem review_percentage_unguarded :
    activePctDisplay { correct := 0, total := 0 } = 0 ∧
    reviewPctDisplay { correct := 0, total := 0 } = none ∧
    activePctDisplay { correct := 1, total := 2 } = 50 ∧
    reviewPctDisplay { correct := 1, total := 2 } = some 50 := by
  exact ⟨rfl, rfl, by decide, by decide⟩
